import Mathlib

/-!
Shallow embedding of the hospital access-control core:
the permission predicates of hospital/permissions.py, the patient
service of hospital/services/patient_service.py (scoping, pagination,
read-through cache, create/update/delete), and the role-dispatched
listing and delete views for consultations, hospitalisations,
emergencies and appointments.
-/

namespace Hospital

/-- The role strings stored on Profile.role; UNKNOWN stands for any
string outside the five role constants. -/
inductive Role
  | ADMIN
  | MEDICAL_ADMIN
  | DOCTOR
  | NURSE
  | SECRETARY
  | UNKNOWN
deriving DecidableEq, Repr

/-- Profile (models.py): role plus the many-to-many set of centre ids. -/
structure Profile where
  role : Role
  centres : List Nat
deriving DecidableEq, Repr

/-- A Django user: id, authentication flag, and the optional related
Profile (absent profile = accessing user.profile raises). -/
structure User where
  id : Nat
  is_authenticated : Bool
  profile : Option Profile
deriving DecidableEq, Repr

/-- Patient (models.py): administrative fields plus the four medical
text fields; default_centre is a nullable foreign key. -/
structure Patient where
  id : Nat
  first_name : String
  last_name : String
  postname : String
  default_centre : Option Nat
  medical_history : Option String
  allergies : Option String
  vaccinations : Option String
  lifestyle : Option String
deriving DecidableEq, Repr

/-- Hospitalisation (models.py): patient and centre foreign keys,
nullable discharge date. -/
structure Hospitalisation where
  id : Nat
  patient : Nat
  centre : Nat
  discharge_date : Option Nat
deriving DecidableEq, Repr

/-- Consultation (models.py): patient/centre foreign keys, nullable
doctor (a user id), and the diagnosis medical field. -/
structure Consultation where
  id : Nat
  patient : Nat
  doctor : Option Nat
  centre : Nat
  diagnosis : Option String
deriving DecidableEq, Repr

/-- Emergency (models.py): patient/centre foreign keys, nullable doctor. -/
structure Emergency where
  id : Nat
  patient : Nat
  doctor : Option Nat
  centre : Nat
deriving DecidableEq, Repr

/-- Appointment (models.py): patient/centre foreign keys, nullable doctor. -/
structure Appointment where
  id : Nat
  patient : Nat
  doctor : Option Nat
  centre : Nat
deriving DecidableEq, Repr

/-- The queryable store: existing centre ids and the five tables,
plus the id the next created patient receives. -/
structure Db where
  centres : List Nat
  patients : List Patient
  hospitalisations : List Hospitalisation
  consultations : List Consultation
  emergencies : List Emergency
  appointments : List Appointment
  nextPatientId : Nat
deriving DecidableEq, Repr

/-- Outcomes of an operation that can fail: login_required redirect,
attribute access on a missing profile, PermissionDenied, Http404. -/
inductive Err
  | notAuthenticated
  | attributeError
  | accessDenied
  | notFound
deriving DecidableEq, Repr

/-- Whether an Except value is a success. -/
def isOk {α : Type} : Except Err α → Bool
  | .ok _ => true
  | .error _ => false

/-! ## permissions.py -/

/-- CanAccessPatient.has_permission (permissions.py lines 98-105). -/
def canAccessPatient_has_permission (u : User) : Bool :=
  if !u.is_authenticated then false
  else
    match u.profile with
    | some prof =>
        match prof.role with
        | .ADMIN | .MEDICAL_ADMIN | .DOCTOR | .SECRETARY | .NURSE => true
        | .UNKNOWN => false
    | none => false

/-- CanAccessPatient.has_object_permission (permissions.py lines
107-136), as reached through the check_patient_access helper. -/
def check_patient_access (db : Db) (u : User) (p : Patient) : Bool :=
  if !u.is_authenticated then false
  else
    match u.profile with
    | none => false
    | some prof =>
        match prof.role with
        | .ADMIN | .MEDICAL_ADMIN => true
        | .DOCTOR => true
        | .SECRETARY =>
            match p.default_centre with
            | some c => prof.centres.contains c
            | none => false
        | .NURSE =>
            db.hospitalisations.any fun h =>
              h.patient == p.id && prof.centres.contains h.centre
        | .UNKNOWN => false

/-- CanAccessMedicalData.has_object_permission applied to a Patient
(permissions.py lines 149-175), via can_access_medical_data. -/
def can_access_medical_data (u : User) (_p : Patient) : Bool :=
  if !u.is_authenticated then false
  else
    match u.profile with
    | none => false
    | some prof =>
        match prof.role with
        | .ADMIN | .MEDICAL_ADMIN => true
        | .DOCTOR => true
        | .NURSE => true
        | _ => false

/-- CanManagePatientAdminData.has_permission (permissions.py lines
181-186), via can_manage_patient_admin_data. -/
def can_manage_patient_admin_data (u : User) : Bool :=
  if !u.is_authenticated then false
  else
    match u.profile with
    | none => false
    | some prof =>
        match prof.role with
        | .ADMIN | .MEDICAL_ADMIN | .DOCTOR | .SECRETARY => true
        | _ => false

/-- CanManagePatientMedicalData.has_permission (permissions.py lines
192-197), via can_manage_patient_medical_data. -/
def can_manage_patient_medical_data (u : User) : Bool :=
  if !u.is_authenticated then false
  else
    match u.profile with
    | none => false
    | some prof =>
        match prof.role with
        | .ADMIN | .MEDICAL_ADMIN | .DOCTOR => true
        | _ => false

/-- CanManageAppointments.has_permission (permissions.py lines 236-242). -/
def can_manage_appointments (u : User) : Bool :=
  if !u.is_authenticated then false
  else
    match u.profile with
    | none => false
    | some prof =>
        match prof.role with
        | .ADMIN | .MEDICAL_ADMIN | .DOCTOR => true
        | _ => false

/-! ## services/patient_service.py -/

/-- Lexicographic comparison of codepoint lists (string collation). -/
def natListLE : List Nat → List Nat → Bool
  | [], _ => true
  | _ :: _, [] => false
  | a :: as, b :: bs => if a < b then true else if b < a then false else natListLE as bs

/-- String comparison via codepoints. -/
def strLE (a b : String) : Bool :=
  natListLE (a.data.map Char.toNat) (b.data.map Char.toNat)

/-- The order_by key of the patient listing: last_name then first_name. -/
def patientLE (a b : Patient) : Bool :=
  if a.last_name == b.last_name then strLE a.first_name b.first_name
  else strLE a.last_name b.last_name

/-- Stable insertion into a sorted list. -/
def insertSorted (x : Patient) : List Patient → List Patient
  | [] => [x]
  | y :: ys => if patientLE x y then x :: y :: ys else y :: insertSorted x ys

/-- order_by('last_name', 'first_name') as a stable sort. -/
def order_by_name : List Patient → List Patient
  | [] => []
  | x :: xs => insertSorted x (order_by_name xs)

/-- The patient ids having a Hospitalisation whose centre is in the
given centres (patient_service.py lines 43-45). -/
def nurse_patient_ids (db : Db) (centres : List Nat) : List Nat :=
  (db.hospitalisations.filter fun h => centres.contains h.centre).map
    fun h => h.patient

/-- The role dispatch of get_patients_for_user / search_patients
(patient_service.py lines 32-48): the unpaginated scoped queryset. -/
def scoped_patients (db : Db) (prof : Profile) : List Patient :=
  match prof.role with
  | .ADMIN | .MEDICAL_ADMIN => db.patients
  | .DOCTOR => db.patients
  | .SECRETARY =>
      db.patients.filter fun p =>
        match p.default_centre with
        | some c => prof.centres.contains c
        | none => false
  | .NURSE =>
      db.patients.filter fun p => (nurse_patient_ids db prof.centres).contains p.id
  | .UNKNOWN => []

/-- Paginator.num_pages: ceiling division, at least one page. -/
def num_pages (count per_page : Nat) : Nat :=
  if per_page = 0 then 1 else max 1 ((count + per_page - 1) / per_page)

/-- Paginator.get_page: out-of-range page numbers fall back to the
last page; returns the slice for the delivered page. -/
def get_page (l : List Patient) (page per_page : Nat) : List Patient :=
  let np := num_pages l.length per_page
  let pg := if page < 1 || np < page then np else page
  (l.drop ((pg - 1) * per_page)).take per_page

/-- The result dictionary built by get_patients_for_user. -/
structure ListResult where
  page_items : List Patient
  total_count : Nat
  total_pages : Nat
deriving DecidableEq, Repr

/-- The cache key f-string patients_{id}_{role}_{page}_{per_page}. -/
structure CacheKey where
  userId : Nat
  role : Role
  page : Nat
  per_page : Nat
deriving DecidableEq, Repr

/-- The Django cache, restricted to the patient-listing entries. -/
abbrev Cache : Type := List (CacheKey × ListResult)

/-- cache.get. -/
def cacheGet (c : Cache) (k : CacheKey) : Option ListResult :=
  ((c : List (CacheKey × ListResult)).find? fun e => e.1 == k).map fun e => e.2

/-- cache.set (overwrites any entry with the same key). -/
def cacheSet (c : Cache) (k : CacheKey) (v : ListResult) : Cache :=
  (k, v) :: (c : List (CacheKey × ListResult)).filter fun e => !(e.1 == k)

/-- Store plus cache: the state threaded through the service. -/
structure ServiceState where
  db : Db
  cache : Cache

/-- Ordering plus pagination plus result dictionary
(patient_service.py lines 50-62). -/
def compute_list (db : Db) (prof : Profile) (page per_page : Nat) : ListResult :=
  let pats := order_by_name (scoped_patients db prof)
  { page_items := get_page pats page per_page
    total_count := pats.length
    total_pages := num_pages pats.length per_page }

/-- PatientService.get_patients_for_user (patient_service.py lines
20-67): the cache key dereferences user.profile.role, so an absent
profile raises before any scoping happens. -/
def get_patients_for_user (u : User) (page per_page : Nat) (use_cache : Bool)
    (st : ServiceState) : Except Err (ListResult × ServiceState) :=
  match u.profile with
  | none => .error .attributeError
  | some prof =>
      let key : CacheKey := ⟨u.id, prof.role, page, per_page⟩
      if use_cache then
        match cacheGet st.cache key with
        | some r => .ok (r, st)
        | none =>
            let r := compute_list st.db prof page per_page
            .ok (r, ⟨st.db, cacheSet st.cache key r⟩)
      else
        .ok (compute_list st.db prof page per_page, st)

/-- PatientService._invalidate_patients_cache (patient_service.py
lines 255-264): deletes the keys for pages 1..10 and page sizes
10/25/50/100 only. -/
def invalidate_patients_cache (uid : Nat) (role : Role) (c : Cache) : Cache :=
  (c : List (CacheKey × ListResult)).filter fun e =>
    !(e.1.userId == uid && e.1.role == role &&
      1 ≤ e.1.page && e.1.page ≤ 10 && [10, 25, 50, 100].contains e.1.per_page)

/-- A create/update submission: present fields are some. -/
structure PatientData where
  first_name : Option String
  last_name : Option String
  postname : Option String
  default_centre : Option Nat
  medical_history : Option String
  allergies : Option String
  vaccinations : Option String
  lifestyle : Option String
deriving DecidableEq, Repr

/-- The empty submission. -/
def PatientData.empty : PatientData :=
  ⟨none, none, none, none, none, none, none, none⟩

/-- The default_centre validation step of _validate_patient_data
(patient_service.py lines 236-251): drops default_centre when it
names no existing centre or, for SECRETARY/NURSE, a centre outside
the actor's centres. -/
def validate_centre (db : Db) (prof : Profile) (d1 : PatientData) : PatientData :=
  match d1.default_centre with
  | none => d1
  | some cid =>
      if db.centres.contains cid then
        if (prof.role == .SECRETARY || prof.role == .NURSE) &&
            !prof.centres.contains cid then
          { d1 with default_centre := none }
        else d1
      else { d1 with default_centre := none }

/-- PatientService._validate_patient_data (patient_service.py lines
223-253): drops the four medical fields for actors lacking
can_manage_patient_medical_data, then validates default_centre. -/
def validate_patient_data (db : Db) (u : User) (prof : Profile)
    (d : PatientData) : PatientData :=
  validate_centre db prof
    (if can_manage_patient_medical_data u then d
     else { d with medical_history := none, allergies := none,
                   vaccinations := none, lifestyle := none })

/-- Patient.objects.create(**validated_data): absent fields take the
model defaults. -/
def patient_from_data (pid : Nat) (d : PatientData) : Patient :=
  { id := pid
    first_name := d.first_name.getD ""
    last_name := d.last_name.getD ""
    postname := d.postname.getD ""
    default_centre := d.default_centre
    medical_history := d.medical_history
    allergies := d.allergies
    vaccinations := d.vaccinations
    lifestyle := d.lifestyle }

/-- setattr for each validated field (patient_service.py lines 142-144). -/
def apply_data (p : Patient) (d : PatientData) : Patient :=
  { p with
    first_name := d.first_name.getD p.first_name
    last_name := d.last_name.getD p.last_name
    postname := d.postname.getD p.postname
    default_centre := match d.default_centre with
      | some c => some c
      | none => p.default_centre
    medical_history := match d.medical_history with
      | some v => some v
      | none => p.medical_history
    allergies := match d.allergies with
      | some v => some v
      | none => p.allergies
    vaccinations := match d.vaccinations with
      | some v => some v
      | none => p.vaccinations
    lifestyle := match d.lifestyle with
      | some v => some v
      | none => p.lifestyle }

/-- PatientService.create_patient (patient_service.py lines 99-118):
allowed for can_manage_patient_admin_data or a SECRETARY; the role
test dereferences user.profile, so a profile-less actor raises. -/
def create_patient (u : User) (d : PatientData) (st : ServiceState) :
    Except Err (Patient × ServiceState) :=
  match u.profile with
  | none => .error .attributeError
  | some prof =>
      if !(can_manage_patient_admin_data u || prof.role == .SECRETARY) then
        .error .accessDenied
      else
        let vd := validate_patient_data st.db u prof d
        let p := patient_from_data st.db.nextPatientId vd
        let db' := { st.db with patients := st.db.patients ++ [p]
                                nextPatientId := st.db.nextPatientId + 1 }
        .ok (p, ⟨db', invalidate_patients_cache u.id prof.role st.cache⟩)

/-- PatientService.update_patient (patient_service.py lines 120-149):
object access, then admin-or-medical manage capability, then
validated setattr, save, and cache invalidation. -/
def update_patient (u : User) (p : Patient) (d : PatientData)
    (st : ServiceState) : Except Err (Patient × ServiceState) :=
  if !check_patient_access st.db u p then .error .accessDenied
  else if !(can_manage_patient_admin_data u || can_manage_patient_medical_data u) then
    .error .accessDenied
  else
    match u.profile with
    | none => .error .attributeError
    | some prof =>
        let vd := validate_patient_data st.db u prof d
        let p' := apply_data p vd
        .ok (p', ⟨{ st.db with patients := st.db.patients.map fun q =>
                      if q.id == p.id then p' else q },
                  invalidate_patients_cache u.id prof.role st.cache⟩)

/-- PatientService.delete_patient (patient_service.py lines 151-169):
object access, then ADMIN only. -/
def delete_patient (u : User) (p : Patient) (st : ServiceState) :
    Except Err ServiceState :=
  if !check_patient_access st.db u p then .error .accessDenied
  else
    match u.profile with
    | none => .error .attributeError
    | some prof =>
        if !(prof.role == .ADMIN) then .error .accessDenied
        else
          .ok ⟨{ st.db with patients := st.db.patients.filter fun q => !(q.id == p.id) },
               invalidate_patients_cache u.id prof.role st.cache⟩

/-- Patient.objects.get / get_object_or_404 by id. -/
def find_patient (db : Db) (pid : Nat) : Option Patient :=
  db.patients.find? fun p => p.id == pid

/-- The detail dictionary of get_patient_detail. -/
structure PatientDetail where
  patient : Patient
  consultations : List Consultation
  hospitalisations : List Hospitalisation
  emergencies : List Emergency
  can_view_medical_data : Bool
deriving DecidableEq, Repr

/-- PatientService.get_patient_detail (patient_service.py lines 69-97):
404 when the id names no patient, PermissionDenied when
check_patient_access refuses, the detail dictionary otherwise. -/
def get_patient_detail (u : User) (pid : Nat) (db : Db) :
    Except Err PatientDetail :=
  match find_patient db pid with
  | none => .error .notFound
  | some p =>
      if !check_patient_access db u p then .error .accessDenied
      else
        .ok { patient := p
              consultations := db.consultations.filter fun c => c.patient == p.id
              hospitalisations := db.hospitalisations.filter fun h => h.patient == p.id
              emergencies := db.emergencies.filter fun e => e.patient == p.id
              can_view_medical_data := can_access_medical_data u p }

/-! ## views: role-dispatched listings -/

/-- consultation_list (consultations_views.py lines 29-44): for
SECRETARY/NURSE the queryset filters on the consultation's patient's
default_centre, joined through the patient table. -/
def consultations_for_user (u : User) (db : Db) :
    Except Err (List Consultation) :=
  if !u.is_authenticated then .error .notAuthenticated
  else
    match u.profile with
    | none => .error .attributeError
    | some prof =>
        match prof.role with
        | .ADMIN | .MEDICAL_ADMIN => .ok db.consultations
        | .DOCTOR => .ok db.consultations
        | .SECRETARY | .NURSE =>
            .ok (db.consultations.filter fun c =>
              match find_patient db c.patient with
              | some p =>
                  match p.default_centre with
                  | some cc => prof.centres.contains cc
                  | none => false
              | none => false)
        | .UNKNOWN => .ok []

/-- hospitalisation_list (hospitalisations_views.py lines 28-38): for
SECRETARY/NURSE the queryset filters on the hospitalisation's own
centre. -/
def hospitalisations_for_user (u : User) (db : Db) :
    Except Err (List Hospitalisation) :=
  if !u.is_authenticated then .error .notAuthenticated
  else
    match u.profile with
    | none => .error .attributeError
    | some prof =>
        match prof.role with
        | .ADMIN | .MEDICAL_ADMIN => .ok db.hospitalisations
        | .DOCTOR => .ok db.hospitalisations
        | .SECRETARY | .NURSE =>
            .ok (db.hospitalisations.filter fun h => prof.centres.contains h.centre)
        | .UNKNOWN => .ok []

/-- emergency_list (emergencies_views.py lines 382-400): for
SECRETARY/NURSE the queryset filters on the emergency's own centre. -/
def emergencies_for_user (u : User) (db : Db) :
    Except Err (List Emergency) :=
  if !u.is_authenticated then .error .notAuthenticated
  else
    match u.profile with
    | none => .error .attributeError
    | some prof =>
        match prof.role with
        | .ADMIN | .MEDICAL_ADMIN => .ok db.emergencies
        | .DOCTOR => .ok db.emergencies
        | .SECRETARY | .NURSE =>
            .ok (db.emergencies.filter fun e => prof.centres.contains e.centre)
        | .UNKNOWN => .ok []

/-- appointment_list (appointments_views.py lines 17-32): denies every
role outside DOCTOR/ADMIN/MEDICAL_ADMIN before any query runs; a
DOCTOR sees only their own appointments. -/
def appointment_list (u : User) (db : Db) : Except Err (List Appointment) :=
  if !u.is_authenticated then .error .notAuthenticated
  else
    match u.profile with
    | none => .error .attributeError
    | some prof =>
        if !(prof.role == .DOCTOR || prof.role == .ADMIN ||
             prof.role == .MEDICAL_ADMIN) then
          .error .accessDenied
        else
          match prof.role with
          | .ADMIN | .MEDICAL_ADMIN => .ok db.appointments
          | .DOCTOR => .ok (db.appointments.filter fun a => a.doctor == some u.id)
          | _ => .ok []

/-! ## views: delete operations (POST branch) -/

/-- consultation_delete (consultations_views.py lines 231-238): only
login_required guards it; any authenticated actor deletes. -/
def consultation_delete (u : User) (cid : Nat) (db : Db) : Except Err Db :=
  if !u.is_authenticated then .error .notAuthenticated
  else
    match db.consultations.find? fun c => c.id == cid with
    | none => .error .notFound
    | some _ =>
        .ok { db with consultations := db.consultations.filter fun c => !(c.id == cid) }

/-- hospitalisation_delete (hospitalisations_views.py lines 368-378):
only login_required guards it; any authenticated actor deletes. -/
def hospitalisation_delete (u : User) (hid : Nat) (db : Db) : Except Err Db :=
  if !u.is_authenticated then .error .notAuthenticated
  else
    match db.hospitalisations.find? fun h => h.id == hid with
    | none => .error .notFound
    | some _ =>
        .ok { db with hospitalisations := db.hospitalisations.filter fun h => !(h.id == hid) }

/-- appointment_delete (appointments_views.py lines 207-215): allowed
for ADMIN, or for a DOCTOR deleting their own appointment. -/
def appointment_delete (u : User) (aid : Nat) (db : Db) : Except Err Db :=
  if !u.is_authenticated then .error .notAuthenticated
  else
    match db.appointments.find? fun a => a.id == aid with
    | none => .error .notFound
    | some a =>
        match u.profile with
        | none => .error .attributeError
        | some prof =>
            if prof.role == .ADMIN ||
                (prof.role == .DOCTOR && a.doctor == some u.id) then
              .ok { db with appointments := db.appointments.filter fun b => !(b.id == aid) }
            else .error .accessDenied

/-- emergency_delete (emergencies_views.py lines 314-330): profile
required, then patient access, then ADMIN only. -/
def emergency_delete (u : User) (eid : Nat) (db : Db) : Except Err Db :=
  if !u.is_authenticated then .error .notAuthenticated
  else
    match u.profile with
    | none => .error .accessDenied
    | some prof =>
        match db.emergencies.find? fun e => e.id == eid with
        | none => .error .notFound
        | some e =>
            match find_patient db e.patient with
            | none => .error .notFound
            | some p =>
                if !check_patient_access db u p then .error .accessDenied
                else if !(prof.role == .ADMIN) then .error .accessDenied
                else
                  .ok { db with emergencies := db.emergencies.filter fun x => !(x.id == eid) }

/-! ## Concrete fixtures -/

/-- Centre 1 plays the role of General, centre 2 of Other. -/
def centreGeneral : Nat := 1

/-- The second centre. -/
def centreOther : Nat := 2

/-- Patient P1: home centre General, no medical data. -/
def exP1 : Patient :=
  { id := 1, first_name := "A", last_name := "A", postname := ""
    default_centre := some centreGeneral
    medical_history := none, allergies := none
    vaccinations := none, lifestyle := none }

/-- Patient P2: home centre Other. -/
def exP2 : Patient :=
  { id := 2, first_name := "B", last_name := "B", postname := ""
    default_centre := some centreOther
    medical_history := none, allergies := none
    vaccinations := none, lifestyle := none }

/-- The single hospitalisation: links P2 to centre General. -/
def exHosp : Hospitalisation :=
  { id := 1, patient := 2, centre := centreGeneral, discharge_date := none }

/-- A consultation held at centre General for P2 (whose home centre is
Other). -/
def exConsult : Consultation :=
  { id := 1, patient := 2, doctor := some 12, centre := centreGeneral
    diagnosis := some "flu" }

/-- An emergency at centre General for P2. -/
def exEmerg : Emergency :=
  { id := 1, patient := 2, doctor := none, centre := centreGeneral }

/-- An appointment at centre General for P2 with doctor 12. -/
def exAppt : Appointment :=
  { id := 1, patient := 2, doctor := some 12, centre := centreGeneral }

/-- The concrete store used by the witnesses and counterexamples. -/
def exDb : Db :=
  { centres := [centreGeneral, centreOther]
    patients := [exP1, exP2]
    hospitalisations := [exHosp]
    consultations := [exConsult]
    emergencies := [exEmerg]
    appointments := [exAppt]
    nextPatientId := 3 }

/-- Secretary profile attached to centre General. -/
def secProf : Profile := { role := .SECRETARY, centres := [centreGeneral] }

/-- Nurse profile attached to centre General. -/
def nurseProf : Profile := { role := .NURSE, centres := [centreGeneral] }

/-- Doctor profile. -/
def docProf : Profile := { role := .DOCTOR, centres := [centreGeneral] }

/-- Admin profile. -/
def adminProf : Profile := { role := .ADMIN, centres := [] }

/-- Secretary S attached to General. -/
def secS : User := { id := 10, is_authenticated := true, profile := some secProf }

/-- Nurse attached to General. -/
def nurseN : User := { id := 11, is_authenticated := true, profile := some nurseProf }

/-- Doctor, user id 12 (the doctor of exConsult and exAppt). -/
def docD : User := { id := 12, is_authenticated := true, profile := some docProf }

/-- Admin. -/
def adminA : User := { id := 13, is_authenticated := true, profile := some adminProf }

/-- An authenticated actor whose Profile row is absent. -/
def noProfUser : User := { id := 14, is_authenticated := true, profile := none }

/-- The update submission used in the cache-coherence run: rename P1. -/
def renameData : PatientData :=
  { PatientData.empty with first_name := some "Z" }

/-- The patient produced by the admin's rename of P1. -/
def exP1renamed : Patient :=
  apply_data exP1 (validate_patient_data exDb adminA adminProf renameData)

/-- The service state after the admin's rename of P1 starting from an
empty cache. -/
def exStAfterRename : ServiceState :=
  ⟨{ exDb with patients := exDb.patients.map fun q =>
       if q.id == exP1.id then exP1renamed else q },
   invalidate_patients_cache adminA.id adminProf.role []⟩

/-- The cache-coherence run of claim C7: admin lists page 1 with page
size 30 (cached), updates P1, lists again. Returns whether the second
listing replays the pre-update snapshot while the store already holds
the update and differs from a fresh computation. -/
def C7probe : Except Err Bool :=
  match get_patients_for_user adminA 1 30 true ⟨exDb, []⟩ with
  | .error e => .error e
  | .ok (r1, st1) =>
      match update_patient adminA exP1 renameData st1 with
      | .error e => .error e
      | .ok (_, st2) =>
          match get_patients_for_user adminA 1 30 true st2 with
          | .error e => .error e
          | .ok (r2, _) =>
              .ok (decide (r2 = r1) &&
                   decide (r2 ≠ compute_list st2.db adminProf 1 30) &&
                   decide (∃ p ∈ r2.page_items, p.id = 1 ∧ p.first_name = "A") &&
                   decide (∀ p ∈ st2.db.patients, p.id = 1 → p.first_name = "Z"))

/-! ## Helper lemmas -/

/-- Membership in the nurse-scoped patient queryset. -/
theorem nurse_scoped_mem (db : Db) (prof : Profile) (hrole : prof.role = Role.NURSE)
    (p : Patient) :
    p ∈ scoped_patients db prof ↔
      p ∈ db.patients ∧
        ∃ h ∈ db.hospitalisations, h.patient = p.id ∧ h.centre ∈ prof.centres := by
  simp only [scoped_patients, hrole, List.mem_filter, nurse_patient_ids]
  constructor
  · rintro ⟨hp, hc⟩
    refine ⟨hp, ?_⟩
    have := List.elem_iff.mp hc
    simp only [List.mem_map, List.mem_filter] at this
    obtain ⟨h, ⟨hh, hcc⟩, hpid⟩ := this
    exact ⟨h, hh, hpid.symm ▸ rfl, List.elem_iff.mp hcc⟩
  · rintro ⟨hp, h, hh, hpid, hcen⟩
    refine ⟨hp, List.elem_iff.mpr ?_⟩
    simp only [List.mem_map, List.mem_filter]
    exact ⟨h, ⟨hh, List.elem_iff.mpr hcen⟩, hpid⟩

/-- Membership in the secretary-scoped patient queryset. -/
theorem secretary_scoped_mem (db : Db) (prof : Profile)
    (hrole : prof.role = Role.SECRETARY) (p : Patient) :
    p ∈ scoped_patients db prof ↔
      p ∈ db.patients ∧ ∃ c, p.default_centre = some c ∧ c ∈ prof.centres := by
  simp only [scoped_patients, hrole, List.mem_filter]
  constructor
  · rintro ⟨hp, hc⟩
    refine ⟨hp, ?_⟩
    cases hdc : p.default_centre with
    | none => rw [hdc] at hc; exact absurd hc (by simp)
    | some c =>
        rw [hdc] at hc
        exact ⟨c, rfl, List.elem_iff.mp hc⟩
  · rintro ⟨hp, c, hdc, hcen⟩
    exact ⟨hp, by rw [hdc]; exact List.elem_iff.mpr hcen⟩

/-- Object-level patient access for a nurse is exactly the existence
of a linking hospitalisation. -/
theorem nurse_access_iff (db : Db) (u : User) (prof : Profile)
    (hauth : u.is_authenticated = true) (hprof : u.profile = some prof)
    (hrole : prof.role = Role.NURSE) (p : Patient) :
    check_patient_access db u p = true ↔
      ∃ h ∈ db.hospitalisations, h.patient = p.id ∧ h.centre ∈ prof.centres := by
  simp only [check_patient_access, hauth, hprof, hrole, Bool.not_true,
    Bool.false_eq_true, if_false, List.any_eq_true, Bool.and_eq_true,
    beq_iff_eq]
  constructor
  · rintro ⟨h, hh, hpid, hcen⟩
    exact ⟨h, hh, hpid, List.elem_iff.mp hcen⟩
  · rintro ⟨h, hh, hpid, hcen⟩
    exact ⟨h, hh, hpid, List.elem_iff.mpr hcen⟩

/-! ## C1 -/

/-- C1: for a Nurse, a patient is in the scoped listing (and passes
object-level access) iff some Hospitalisation links that patient to
one of the nurse's centres; the patient's home centre plays no role;
deleting the sole linking hospitalisation removes the patient from
the listing. -/
theorem C1_nurse_scope_via_hospitalisation (db : Db) (u : User) (prof : Profile)
    (hauth : u.is_authenticated = true) (hprof : u.profile = some prof)
    (hrole : prof.role = Role.NURSE) :
    (∀ p : Patient, p ∈ scoped_patients db prof ↔
      p ∈ db.patients ∧
        ∃ h ∈ db.hospitalisations, h.patient = p.id ∧ h.centre ∈ prof.centres)
  ∧ (∀ p : Patient, check_patient_access db u p = true ↔
      ∃ h ∈ db.hospitalisations, h.patient = p.id ∧ h.centre ∈ prof.centres)
  ∧ (∀ p : Patient, ∀ c : Option Nat,
      check_patient_access db u { p with default_centre := c } =
        check_patient_access db u p)
  ∧ (∀ p : Patient, ∀ hid : Nat,
      (∀ h ∈ db.hospitalisations, h.patient = p.id → h.centre ∈ prof.centres →
        h.id = hid) →
      p ∉ scoped_patients
        { db with hospitalisations :=
            db.hospitalisations.filter fun h => !(h.id == hid) } prof) := by
  refine ⟨fun p => nurse_scoped_mem db prof hrole p,
          fun p => nurse_access_iff db u prof hauth hprof hrole p,
          ?_, ?_⟩
  · intro p c
    simp [check_patient_access, hauth, hprof, hrole]
  · intro p hid hsole hmem
    rw [nurse_scoped_mem _ prof hrole p] at hmem
    obtain ⟨-, h, hh, hpid, hcen⟩ := hmem
    simp only [List.mem_filter, Bool.not_eq_eq_eq_not, Bool.not_true,
      beq_eq_false_iff_ne] at hh
    exact hh.2 (hsole h hh.1 hpid hcen)

/-- Witness for C1 at the concrete store: the nurse attached to
General sees P2 (home centre Other) through the hospitalisation. -/
theorem C1_witness :
    (exP2 ∈ scoped_patients exDb nurseProf ↔
      exP2 ∈ exDb.patients ∧
        ∃ h ∈ exDb.hospitalisations, h.patient = exP2.id ∧ h.centre ∈ nurseProf.centres)
  ∧ exP2 ∈ scoped_patients exDb nurseProf :=
  ⟨(C1_nurse_scope_via_hospitalisation exDb nurseN nurseProf rfl rfl rfl).1 exP2,
   by decide⟩

/-! ## C2 -/

/-- C2: a Secretary's scoped listing is exactly the patients whose
home centre lies in the secretary's centres; a Nurse's listing never
contains a patient without a linking hospitalisation; concretely,
Secretary S at General lists only P1 and gets AccessDenied on P2's
detail. -/
theorem C2_secretary_exact_scope :
    (∀ (db : Db) (prof : Profile), prof.role = Role.SECRETARY → ∀ p : Patient,
      p ∈ scoped_patients db prof ↔
        p ∈ db.patients ∧ ∃ c, p.default_centre = some c ∧ c ∈ prof.centres)
  ∧ (∀ (db : Db) (prof : Profile), prof.role = Role.NURSE →
      ∀ p ∈ scoped_patients db prof,
        ∃ h ∈ db.hospitalisations, h.patient = p.id ∧ h.centre ∈ prof.centres)
  ∧ get_patients_for_user secS 1 25 false ⟨exDb, []⟩ =
      .ok (⟨[exP1], 1, 1⟩, ⟨exDb, []⟩)
  ∧ get_patient_detail secS 2 exDb = .error .accessDenied := by
  refine ⟨fun db prof h p => secretary_scoped_mem db prof h p,
          fun db prof h p hp => ((nurse_scoped_mem db prof h p).mp hp).2,
          rfl, rfl⟩

/-- Witness for C2: Secretary S sees P1 (home centre General). -/
theorem C2_witness :
    (exP1 ∈ scoped_patients exDb secProf ↔
      exP1 ∈ exDb.patients ∧ ∃ c, exP1.default_centre = some c ∧ c ∈ secProf.centres)
  ∧ exP1 ∈ scoped_patients exDb secProf :=
  ⟨C2_secretary_exact_scope.1 exDb secProf rfl exP1, by decide⟩

/-! ## C3 -/

/-- The centre-validation step only ever touches default_centre. -/
theorem validate_centre_keeps_rest (db : Db) (prof : Profile) (d1 : PatientData) :
    (validate_centre db prof d1).first_name = d1.first_name ∧
    (validate_centre db prof d1).last_name = d1.last_name ∧
    (validate_centre db prof d1).postname = d1.postname ∧
    (validate_centre db prof d1).medical_history = d1.medical_history ∧
    (validate_centre db prof d1).allergies = d1.allergies ∧
    (validate_centre db prof d1).vaccinations = d1.vaccinations ∧
    (validate_centre db prof d1).lifestyle = d1.lifestyle := by
  unfold validate_centre
  cases hdc : d1.default_centre
  · exact ⟨rfl, rfl, rfl, rfl, rfl, rfl, rfl⟩
  · refine ⟨?_, ?_, ?_, ?_, ?_, ?_, ?_⟩ <;> (repeat' split) <;> rfl

/-- Validation drops all four medical fields for an actor lacking the
manage-medical-data capability. -/
theorem validate_drops_medical (db : Db) (u : User) (prof : Profile)
    (d : PatientData) (h : can_manage_patient_medical_data u = false) :
    (validate_patient_data db u prof d).medical_history = none ∧
    (validate_patient_data db u prof d).allergies = none ∧
    (validate_patient_data db u prof d).vaccinations = none ∧
    (validate_patient_data db u prof d).lifestyle = none := by
  unfold validate_patient_data
  rw [h]
  have hk := validate_centre_keeps_rest db prof
    { d with medical_history := none, allergies := none,
             vaccinations := none, lifestyle := none }
  simp only [Bool.false_eq_true, if_false]
  exact ⟨hk.2.2.2.1, hk.2.2.2.2.1, hk.2.2.2.2.2.1, hk.2.2.2.2.2.2⟩

/-- Validation never touches the name fields. -/
theorem validate_keeps_names (db : Db) (u : User) (prof : Profile)
    (d : PatientData) :
    (validate_patient_data db u prof d).first_name = d.first_name ∧
    (validate_patient_data db u prof d).last_name = d.last_name ∧
    (validate_patient_data db u prof d).postname = d.postname := by
  unfold validate_patient_data
  split
  · have hk := validate_centre_keeps_rest db prof d
    exact ⟨hk.1, hk.2.1, hk.2.2.1⟩
  · have hk := validate_centre_keeps_rest db prof
      { d with medical_history := none, allergies := none,
               vaccinations := none, lifestyle := none }
    exact ⟨hk.1, hk.2.1, hk.2.2.1⟩

/-- The success shape of create_patient once the capability guard
passes. -/
theorem create_patient_ok_shape (u : User) (prof : Profile) (d : PatientData)
    (st : ServiceState) (hprof : u.profile = some prof)
    (hperm : (can_manage_patient_admin_data u || prof.role == Role.SECRETARY) = true) :
    create_patient u d st = .ok
      (patient_from_data st.db.nextPatientId (validate_patient_data st.db u prof d),
       ⟨{ st.db with
            patients := st.db.patients ++
              [patient_from_data st.db.nextPatientId (validate_patient_data st.db u prof d)]
            nextPatientId := st.db.nextPatientId + 1 },
         invalidate_patients_cache u.id prof.role st.cache⟩) := by
  simp [create_patient, hprof, hperm]

/-- The success shape of update_patient once access and capability
pass. -/
theorem update_patient_ok_shape (u : User) (prof : Profile) (p : Patient)
    (d : PatientData) (st : ServiceState) (hprof : u.profile = some prof)
    (hacc : check_patient_access st.db u p = true)
    (hperm : (can_manage_patient_admin_data u || can_manage_patient_medical_data u) = true) :
    update_patient u p d st = .ok
      (apply_data p (validate_patient_data st.db u prof d),
       ⟨{ st.db with patients := st.db.patients.map fun q =>
            if q.id == p.id then apply_data p (validate_patient_data st.db u prof d) else q },
         invalidate_patients_cache u.id prof.role st.cache⟩) := by
  simp [update_patient, hacc, hperm, hprof]

/-- update_patient denies when object access fails. -/
theorem update_patient_no_access (u : User) (p : Patient) (d : PatientData)
    (st : ServiceState) (hacc : check_patient_access st.db u p = false) :
    update_patient u p d st = .error .accessDenied := by
  simp [update_patient, hacc]

/-- A secretary holds the manage-admin-data capability. -/
theorem secretary_can_manage_admin (u : User) (prof : Profile)
    (hauth : u.is_authenticated = true) (hprof : u.profile = some prof)
    (hrole : prof.role = Role.SECRETARY) :
    can_manage_patient_admin_data u = true := by
  simp [can_manage_patient_admin_data, hauth, hprof, hrole]

/-- A secretary lacks the manage-medical-data capability. -/
theorem secretary_cannot_manage_medical (u : User) (prof : Profile)
    (hprof : u.profile = some prof) (hrole : prof.role = Role.SECRETARY) :
    can_manage_patient_medical_data u = false := by
  simp only [can_manage_patient_medical_data, hprof, hrole]
  split <;> simp

/-- C3 counterexample: a Nurse (a role other than Admin, MedicalAdmin,
Doctor) submitting permitted fields does not get a successful create
with the medical fields dropped — create denies nurses outright. -/
theorem C3_cex :
    create_patient nurseN
      { PatientData.empty with first_name := some "N", medical_history := some "X" }
      ⟨exDb, []⟩ = .error .accessDenied := by rfl

/-- C3 amended: for every Secretary actor, create and update silently
drop each submitted medical field — the stored record never receives
a value for them — while the permitted fields take effect and the
operation succeeds (update succeeding whenever object access holds);
a Nurse, by contrast, is denied create/update entirely. -/
theorem C3_secretary_medical_drop (u : User) (prof : Profile)
    (hauth : u.is_authenticated = true) (hprof : u.profile = some prof)
    (hrole : prof.role = Role.SECRETARY) (d : PatientData) (st : ServiceState) :
    (∃ p st', create_patient u d st = .ok (p, st') ∧
      p.medical_history = none ∧ p.allergies = none ∧
      p.vaccinations = none ∧ p.lifestyle = none ∧
      p.first_name = d.first_name.getD "" ∧ p ∈ st'.db.patients)
  ∧ (∀ p p' st', update_patient u p d st = .ok (p', st') →
      p'.medical_history = p.medical_history ∧ p'.allergies = p.allergies ∧
      p'.vaccinations = p.vaccinations ∧ p'.lifestyle = p.lifestyle ∧
      p'.first_name = d.first_name.getD p.first_name)
  ∧ (∀ p : Patient, check_patient_access st.db u p = true →
      isOk (update_patient u p d st) = true) := by
  have hadm := secretary_can_manage_admin u prof hauth hprof hrole
  have hmed := secretary_cannot_manage_medical u prof hprof hrole
  have hdrop := validate_drops_medical st.db u prof d hmed
  have hnames := validate_keeps_names st.db u prof d
  refine ⟨?_, ?_, ?_⟩
  · refine ⟨_, _, create_patient_ok_shape u prof d st hprof (by rw [hadm]; rfl),
      ?_, ?_, ?_, ?_, ?_, ?_⟩
    · simpa [patient_from_data] using hdrop.1
    · simpa [patient_from_data] using hdrop.2.1
    · simpa [patient_from_data] using hdrop.2.2.1
    · simpa [patient_from_data] using hdrop.2.2.2
    · simp [patient_from_data, hnames.1]
    · simp
  · intro p p' st' hup
    by_cases hacc : check_patient_access st.db u p = true
    · rw [update_patient_ok_shape u prof p d st hprof hacc (by rw [hadm]; rfl)] at hup
      simp only [Except.ok.injEq, Prod.mk.injEq] at hup
      obtain ⟨hp', -⟩ := hup
      subst hp'
      simp [apply_data, hdrop.1, hdrop.2.1, hdrop.2.2.1, hdrop.2.2.2, hnames.1]
    · rw [update_patient_no_access u p d st (by simpa using hacc)] at hup
      exact absurd hup (by simp)
  · intro p hacc
    rw [update_patient_ok_shape u prof p d st hprof hacc (by rw [hadm]; rfl)]
    rfl

/-- Witness for C3 amended: Secretary S creates a patient submitting
medical_history, name "C" sticks, medical history does not. -/
theorem C3_witness :
    ∃ p st', create_patient secS
      { PatientData.empty with first_name := some "C", medical_history := some "X" }
      ⟨exDb, []⟩ = .ok (p, st') ∧
      p.medical_history = none ∧ p.allergies = none ∧
      p.vaccinations = none ∧ p.lifestyle = none ∧
      p.first_name = (some "C").getD "" ∧ p ∈ st'.db.patients :=
  (C3_secretary_medical_drop secS secProf rfl rfl rfl
    { PatientData.empty with first_name := some "C", medical_history := some "X" }
    ⟨exDb, []⟩).1

/-! ## C4 -/

/-- Passing the object-level patient check requires an authenticated
actor with a profile. -/
theorem access_requires_profile (db : Db) (u : User) (p : Patient)
    (h : check_patient_access db u p = true) :
    u.is_authenticated = true ∧ ∃ prof, u.profile = some prof := by
  unfold check_patient_access at h
  cases hau : u.is_authenticated
  · rw [hau] at h; exact absurd h (by simp)
  · refine ⟨rfl, ?_⟩
    cases hpr : u.profile
    · rw [hau, hpr] at h; exact absurd h (by simp)
    · exact ⟨_, rfl⟩

/-- C4 counterexample: a Secretary's consultation delete and a
Doctor's delete of their own appointment both succeed, so delete is
not Admin-only across resource types. -/
theorem C4_cex :
    consultation_delete secS 1 exDb = .ok { exDb with consultations := [] }
  ∧ appointment_delete docD 1 exDb = .ok { exDb with appointments := [] } :=
  ⟨rfl, rfl⟩

/-- C4 amended: delete is Admin-only for Patient and Emergency;
Appointment delete additionally succeeds for the appointment's own
doctor (so every actor neither Admin nor Doctor is denied); while
Consultation and Hospitalisation delete succeed for any authenticated
actor whatsoever. -/
theorem C4_delete_role_matrix (u : User) (st : ServiceState) (db : Db) :
    (∀ p : Patient, (∀ prof, u.profile = some prof → prof.role ≠ Role.ADMIN) →
      delete_patient u p st = .error .accessDenied)
  ∧ (∀ prof, u.profile = some prof → prof.role ≠ Role.ADMIN →
      ∀ eid, isOk (emergency_delete u eid db) = false)
  ∧ (∀ prof, u.profile = some prof → prof.role ≠ Role.ADMIN →
      prof.role ≠ Role.DOCTOR →
      ∀ aid, isOk (appointment_delete u aid db) = false)
  ∧ (∀ cid c, u.is_authenticated = true →
      db.consultations.find? (fun x => x.id == cid) = some c →
      consultation_delete u cid db =
        .ok { db with consultations := db.consultations.filter fun x => !(x.id == cid) })
  ∧ (∀ hid h, u.is_authenticated = true →
      db.hospitalisations.find? (fun x => x.id == hid) = some h →
      hospitalisation_delete u hid db =
        .ok { db with hospitalisations := db.hospitalisations.filter fun x => !(x.id == hid) }) := by
  refine ⟨?_, ?_, ?_, ?_, ?_⟩
  · intro p hne
    by_cases hacc : check_patient_access st.db u p = true
    · obtain ⟨-, prof, hprof⟩ := access_requires_profile st.db u p hacc
      have hrole : (prof.role == Role.ADMIN) = false :=
        beq_eq_false_iff_ne.mpr (hne prof hprof)
      simp [delete_patient, hacc, hprof, hrole]
    · have hacc' : check_patient_access st.db u p = false := by simpa using hacc
      simp [delete_patient, hacc']
  · intro prof hprof hne eid
    simp only [emergency_delete, hprof]
    repeat' split
    all_goals simp_all [isOk]
  · intro prof hprof hne hnd aid
    simp only [appointment_delete, hprof]
    repeat' split
    all_goals simp_all [isOk]
  · intro cid c hau hfind
    simp [consultation_delete, hau, hfind]
  · intro hid h hau hfind
    simp [hospitalisation_delete, hau, hfind]

/-- Witness for C4 amended: a Nurse deletes a consultation with no
role check standing in the way. -/
theorem C4_witness :
    consultation_delete nurseN 1 exDb =
      .ok { exDb with consultations := exDb.consultations.filter fun x => !(x.id == 1) }
  ∧ exDb.consultations.filter (fun x => !(x.id == 1)) = [] :=
  ⟨(C4_delete_role_matrix nurseN ⟨exDb, []⟩ exDb).2.2.2.1 1 exConsult rfl rfl,
   by decide⟩

/-! ## C5 -/

/-- C5 counterexample: exConsult is held at the Secretary's own
centre (General), yet her consultation listing is empty, because the
code scopes consultations by the patient's home centre (Other). -/
theorem C5_cex :
    consultations_for_user secS exDb = .ok []
  ∧ exConsult ∈ exDb.consultations
  ∧ exConsult.centre ∈ secProf.centres :=
  ⟨rfl, by decide, by decide⟩

/-- C5 amended: for Secretary/Nurse the Hospitalisation and Emergency
listings are scoped by the event's own centre, but the Consultation
listing is scoped by the consultation's patient's home centre. -/
theorem C5_event_scoping (u : User) (prof : Profile) (db : Db)
    (hauth : u.is_authenticated = true) (hprof : u.profile = some prof)
    (hrole : prof.role = Role.SECRETARY ∨ prof.role = Role.NURSE) :
    (∀ L, hospitalisations_for_user u db = .ok L →
      ∀ h, h ∈ L ↔ h ∈ db.hospitalisations ∧ h.centre ∈ prof.centres)
  ∧ (∀ L, emergencies_for_user u db = .ok L →
      ∀ e, e ∈ L ↔ e ∈ db.emergencies ∧ e.centre ∈ prof.centres)
  ∧ (∀ L, consultations_for_user u db = .ok L →
      ∀ c, c ∈ L ↔ c ∈ db.consultations ∧
        ∃ p cc, find_patient db c.patient = some p ∧
          p.default_centre = some cc ∧ cc ∈ prof.centres) := by
  refine ⟨?_, ?_, ?_⟩
  · intro L hL h
    rcases hrole with hr | hr <;>
      simp only [hospitalisations_for_user, hauth, Bool.not_true,
        Bool.false_eq_true, if_false, hprof, hr] at hL <;>
      cases Except.ok.inj hL <;>
      simp [List.mem_filter, List.elem_iff]
  · intro L hL e
    rcases hrole with hr | hr <;>
      simp only [emergencies_for_user, hauth, Bool.not_true,
        Bool.false_eq_true, if_false, hprof, hr] at hL <;>
      cases Except.ok.inj hL <;>
      simp [List.mem_filter, List.elem_iff]
  · intro L hL c
    have hmem : c ∈ db.consultations.filter (fun c =>
        match find_patient db c.patient with
        | some p =>
            match p.default_centre with
            | some cc => prof.centres.contains cc
            | none => false
        | none => false) ↔
        c ∈ db.consultations ∧
          ∃ p cc, find_patient db c.patient = some p ∧
            p.default_centre = some cc ∧ cc ∈ prof.centres := by
      rw [List.mem_filter]
      constructor
      · rintro ⟨hc, hf⟩
        refine ⟨hc, ?_⟩
        cases hfp : find_patient db c.patient with
        | none => rw [hfp] at hf; exact absurd hf (by simp)
        | some p =>
            rw [hfp] at hf
            replace hf : (match p.default_centre with
                | some cc => prof.centres.contains cc
                | none => false) = true := hf
            cases hdc : p.default_centre with
            | none => rw [hdc] at hf; exact absurd hf (by simp)
            | some cc =>
                rw [hdc] at hf
                exact ⟨p, cc, rfl, hdc, List.elem_iff.mp hf⟩
      · rintro ⟨hc, p, cc, hfp, hdc, hcen⟩
        refine ⟨hc, ?_⟩
        rw [hfp]
        show (match p.default_centre with
            | some cc => prof.centres.contains cc
            | none => false) = true
        rw [hdc]
        exact List.elem_iff.mpr hcen
    rcases hrole with hr | hr <;>
      simp only [consultations_for_user, hauth, Bool.not_true,
        Bool.false_eq_true, if_false, hprof, hr] at hL <;>
      cases Except.ok.inj hL <;>
      exact hmem

/-- Witness for C5 amended: the secretary's hospitalisation listing
is [exHosp], whose centre is hers. -/
theorem C5_witness :
    (exHosp ∈ [exHosp] ↔
      exHosp ∈ exDb.hospitalisations ∧ exHosp.centre ∈ secProf.centres)
  ∧ exHosp.centre ∈ secProf.centres :=
  ⟨(C5_event_scoping secS secProf exDb rfl rfl (Or.inl rfl)).1 [exHosp] rfl exHosp,
   by decide⟩

/-! ## C6 -/

/-- C6: the detail operation on an existing patient outside the
actor's scope fails with AccessDenied — never NotFound and never a
silently successful result. -/
theorem C6_detail_access_denied (u : User) (db : Db) (pid : Nat) (p : Patient)
    (hfind : find_patient db pid = some p)
    (hacc : check_patient_access db u p = false) :
    get_patient_detail u pid db = .error .accessDenied := by
  simp [get_patient_detail, hfind, hacc]

/-- Witness for C6: the nurse has no hospitalisation linking P1, so
P1's detail denies access (P1 does exist). -/
theorem C6_witness :
    get_patient_detail nurseN 1 exDb = .error .accessDenied
  ∧ find_patient exDb 1 = some exP1 :=
  ⟨C6_detail_access_denied nurseN exDb 1 exP1 rfl (by decide), by decide⟩

/-! ## C7 -/

/-- C7 counterexample: with page size 30 the cached pre-update
snapshot survives the update's invalidation and is replayed. -/
theorem C7_cex : C7probe = .ok true := by rfl

/-- Looking up a covered grid key after invalidation finds nothing. -/
theorem cacheGet_invalidated (uid : Nat) (role : Role) (c : Cache)
    (page per_page : Nat) (h1 : 1 ≤ page) (h2 : page ≤ 10)
    (h3 : per_page ∈ [10, 25, 50, 100]) :
    cacheGet (invalidate_patients_cache uid role c)
      ⟨uid, role, page, per_page⟩ = none := by
  have hfind : (invalidate_patients_cache uid role c).find?
      (fun e => e.1 == (⟨uid, role, page, per_page⟩ : CacheKey)) = none := by
    rw [List.find?_eq_none]
    intro e he
    rw [invalidate_patients_cache, List.mem_filter] at he
    obtain ⟨-, hcov⟩ := he
    intro hk
    have hk' : e.1 = ⟨uid, role, page, per_page⟩ := by
      simpa using hk
    rw [hk'] at hcov
    simp [h1, h2, h3] at hcov
  unfold cacheGet
  rw [hfind]
  rfl

/-- update_patient denies when the capability check fails. -/
theorem update_patient_no_perm (u : User) (p : Patient) (d : PatientData)
    (st : ServiceState) (hacc : check_patient_access st.db u p = true)
    (hperm : (can_manage_patient_admin_data u || can_manage_patient_medical_data u) = false) :
    update_patient u p d st = .error .accessDenied := by
  simp [update_patient, hacc, hperm]

/-- C7 amended: the enumeration-based invalidation covers exactly the
grid pages 1..10 with page sizes 10/25/50/100 — after an update
commits, a listing with a page/page-size pair inside that grid never
replays the pre-update snapshot (its key is gone, so the result is
recomputed from the post-update store); pairs outside the grid can
replay stale snapshots (see the counterexample). -/
theorem C7_grid_invalidation (u : User) (prof : Profile) (p p' : Patient)
    (d : PatientData) (st st' : ServiceState)
    (hprof : u.profile = some prof)
    (hup : update_patient u p d st = .ok (p', st'))
    (page per_page : Nat) (h1 : 1 ≤ page) (h2 : page ≤ 10)
    (h3 : per_page ∈ [10, 25, 50, 100]) :
    cacheGet st'.cache ⟨u.id, prof.role, page, per_page⟩ = none ∧
    get_patients_for_user u page per_page true st' =
      .ok (compute_list st'.db prof page per_page,
        ⟨st'.db, cacheSet st'.cache ⟨u.id, prof.role, page, per_page⟩
          (compute_list st'.db prof page per_page)⟩) := by
  by_cases hacc : check_patient_access st.db u p = true
  · by_cases hperm : (can_manage_patient_admin_data u ||
        can_manage_patient_medical_data u) = true
    · rw [update_patient_ok_shape u prof p d st hprof hacc hperm] at hup
      simp only [Except.ok.injEq, Prod.mk.injEq] at hup
      obtain ⟨-, hst'⟩ := hup
      have hc1 : cacheGet st'.cache ⟨u.id, prof.role, page, per_page⟩ = none := by
        rw [← hst']
        exact cacheGet_invalidated u.id prof.role st.cache page per_page h1 h2 h3
      refine ⟨hc1, ?_⟩
      simp [get_patients_for_user, hprof, hc1]
    · rw [update_patient_no_perm u p d st hacc (by simpa using hperm)] at hup
      exact absurd hup (by simp)
  · rw [update_patient_no_access u p d st (by simpa using hacc)] at hup
    exact absurd hup (by simp)

/-- Witness for C7 amended: after the admin's rename, the grid key
(page 1, size 25) is invalidated and the listing recomputes. -/
theorem C7_witness :
    cacheGet exStAfterRename.cache ⟨adminA.id, adminProf.role, 1, 25⟩ = none ∧
    get_patients_for_user adminA 1 25 true exStAfterRename =
      .ok (compute_list exStAfterRename.db adminProf 1 25,
        ⟨exStAfterRename.db,
         cacheSet exStAfterRename.cache ⟨adminA.id, adminProf.role, 1, 25⟩
           (compute_list exStAfterRename.db adminProf 1 25)⟩) :=
  C7_grid_invalidation adminA adminProf exP1 exP1renamed renameData
    ⟨exDb, []⟩ exStAfterRename rfl rfl 1 25 (by decide) (by decide) (by decide)

/-! ## C8 -/

/-- C8 counterexample: an authenticated actor with no profile does
not get the empty listing — the listing service raises an attribute
error on user.profile before any scoping runs. -/
theorem C8_cex :
    get_patients_for_user noProfUser 1 25 true ⟨exDb, []⟩ =
      .error .attributeError
  ∧ noProfUser.is_authenticated = true :=
  ⟨rfl, rfl⟩

/-- C8 amended: for an authenticated actor with no profile, every
permission predicate denies and the object check refuses, but the
patient listing service is not total on such actors: it raises an
attribute error instead of returning an empty page; the deny-all
empty listing applies only to actors whose profile carries an
unrecognized role. -/
theorem C8_no_profile_denies (u : User) (hprof : u.profile = none) :
    canAccessPatient_has_permission u = false
  ∧ (∀ db p, check_patient_access db u p = false)
  ∧ can_manage_patient_admin_data u = false
  ∧ can_manage_patient_medical_data u = false
  ∧ can_manage_appointments u = false
  ∧ (∀ (page per_page : Nat) (uc : Bool) (st : ServiceState),
      get_patients_for_user u page per_page uc st = .error .attributeError)
  ∧ (∀ (db : Db) (prof2 : Profile), prof2.role = Role.UNKNOWN →
      scoped_patients db prof2 = []) := by
  refine ⟨?_, ?_, ?_, ?_, ?_, ?_, ?_⟩
  · cases hau : u.is_authenticated <;>
      simp [canAccessPatient_has_permission, hau, hprof]
  · intro db p
    cases hau : u.is_authenticated <;>
      simp [check_patient_access, hau, hprof]
  · cases hau : u.is_authenticated <;>
      simp [can_manage_patient_admin_data, hau, hprof]
  · cases hau : u.is_authenticated <;>
      simp [can_manage_patient_medical_data, hau, hprof]
  · cases hau : u.is_authenticated <;>
      simp [can_manage_appointments, hau, hprof]
  · intro page per_page uc st
    simp [get_patients_for_user, hprof]
  · intro db prof2 hR
    simp [scoped_patients, hR]

/-- Witness for C8 amended at the concrete profile-less actor. -/
theorem C8_witness :
    canAccessPatient_has_permission noProfUser = false
  ∧ get_patients_for_user noProfUser 2 50 true ⟨exDb, []⟩ =
      .error .attributeError :=
  ⟨(C8_no_profile_denies noProfUser rfl).1,
   (C8_no_profile_denies noProfUser rfl).2.2.2.2.2.1 2 50 true ⟨exDb, []⟩⟩

/-! ## C9 -/

/-- C9 counterexample: the Secretary's appointment list does not
succeed read-only — the view denies her before any query. -/
theorem C9_cex : appointment_list secS exDb = .error .accessDenied := by rfl

/-- C9 amended: a Secretary lacks the ManageAppointments capability
and is also denied the appointment list operation itself — only
Doctor/Admin/MedicalAdmin reach the appointment listing. -/
theorem C9_secretary_appointments (u : User) (prof : Profile) (db : Db)
    (hauth : u.is_authenticated = true) (hprof : u.profile = some prof)
    (hrole : prof.role = Role.SECRETARY) :
    can_manage_appointments u = false
  ∧ appointment_list u db = .error .accessDenied := by
  constructor
  · simp [can_manage_appointments, hauth, hprof, hrole]
  · simp [appointment_list, hauth, hprof, hrole]

/-- Witness for C9 amended at the concrete secretary. -/
theorem C9_witness :
    can_manage_appointments secS = false
  ∧ appointment_list secS exDb = .error .accessDenied :=
  C9_secretary_appointments secS secProf exDb rfl rfl rfl

/-! ## C10 -/

/-- The centre-validation step drops a submitted default_centre that
names no existing centre or, for SECRETARY/NURSE, one outside the
actor's centres. -/
theorem validate_centre_drops (db : Db) (prof : Profile) (d1 : PatientData)
    (cid : Nat) (h : d1.default_centre = some cid)
    (hrole : prof.role = Role.SECRETARY ∨ prof.role = Role.NURSE)
    (hbad : cid ∉ db.centres ∨ cid ∉ prof.centres) :
    (validate_centre db prof d1).default_centre = none := by
  unfold validate_centre
  rw [h]
  rcases hbad with hb | hb
  · simp [hb]
  · by_cases hdb : cid ∈ db.centres <;> simp [hdb, hrole, hb]

/-- The full validation drops such a default_centre as well. -/
theorem validate_data_drops_centre (db : Db) (u : User) (prof : Profile)
    (d : PatientData) (cid : Nat) (h : d.default_centre = some cid)
    (hrole : prof.role = Role.SECRETARY ∨ prof.role = Role.NURSE)
    (hbad : cid ∉ db.centres ∨ cid ∉ prof.centres) :
    (validate_patient_data db u prof d).default_centre = none := by
  unfold validate_patient_data
  split
  · exact validate_centre_drops db prof d cid h hrole hbad
  · exact validate_centre_drops db prof _ cid h hrole hbad

/-- C10 counterexample: the claim also ranges over Nurse actors, but
a Nurse's update is rejected with PermissionDenied outright (here on
a patient she can access), rather than succeeding with the
out-of-scope default_centre dropped. -/
theorem C10_cex :
    update_patient nurseN exP2
      { PatientData.empty with default_centre := some centreOther }
      ⟨exDb, []⟩ = .error .accessDenied
  ∧ check_patient_access exDb nurseN exP2 = true :=
  ⟨by rfl, by decide⟩

/-- C10 amended: for a Secretary, a submitted default_centre naming
no existing centre or a centre outside her centres is silently
dropped — create succeeds with the home centre unset, update leaves
it unchanged (and update succeeds whenever object access holds); a
Nurse is denied create/update entirely. -/
theorem C10_secretary_centre_drop (u : User) (prof : Profile)
    (d : PatientData) (cid : Nat) (st : ServiceState)
    (hauth : u.is_authenticated = true) (hprof : u.profile = some prof)
    (hrole : prof.role = Role.SECRETARY)
    (hc : d.default_centre = some cid)
    (hbad : cid ∉ st.db.centres ∨ cid ∉ prof.centres) :
    (∃ p st', create_patient u d st = .ok (p, st') ∧ p.default_centre = none)
  ∧ (∀ p p' st', update_patient u p d st = .ok (p', st') →
      p'.default_centre = p.default_centre)
  ∧ (∀ p : Patient, check_patient_access st.db u p = true →
      isOk (update_patient u p d st) = true) := by
  have hadm := secretary_can_manage_admin u prof hauth hprof hrole
  have hdropc := validate_data_drops_centre st.db u prof d cid hc
    (Or.inl hrole) hbad
  refine ⟨?_, ?_, ?_⟩
  · refine ⟨_, _, create_patient_ok_shape u prof d st hprof (by rw [hadm]; rfl), ?_⟩
    simpa [patient_from_data] using hdropc
  · intro p p' st' hup
    by_cases hacc : check_patient_access st.db u p = true
    · rw [update_patient_ok_shape u prof p d st hprof hacc (by rw [hadm]; rfl)] at hup
      simp only [Except.ok.injEq, Prod.mk.injEq] at hup
      obtain ⟨hp', -⟩ := hup
      subst hp'
      simp [apply_data, hdropc]
    · rw [update_patient_no_access u p d st (by simpa using hacc)] at hup
      exact absurd hup (by simp)
  · intro p hacc
    rw [update_patient_ok_shape u prof p d st hprof hacc (by rw [hadm]; rfl)]
    rfl

/-- Witness for C10 amended: Secretary S submits default_centre =
Other (exists, but outside her centres); creation succeeds with the
home centre left unset. -/
theorem C10_witness :
    ∃ p st', create_patient secS
      { PatientData.empty with default_centre := some centreOther }
      ⟨exDb, []⟩ = .ok (p, st') ∧ p.default_centre = none :=
  (C10_secretary_centre_drop secS secProf
    { PatientData.empty with default_centre := some centreOther }
    centreOther ⟨exDb, []⟩ rfl rfl rfl rfl (Or.inr (by decide))).1

end Hospital
